import Mathlib

/-
Verification of the coral front end: a shallow embedding of the scanner and
tokenizer in `src/lexer.py` and `src/token.py`, and of the four pattern
matchers in `src/src/pattern.py`.

Conventions of the embedding:
* Source text is a `List Char`; the Character Cursor position is an explicit
  `Nat` threaded through the functions.
* Python exceptions are modelled by the `PyError` type; a computation that can
  raise returns `Except PyError _` or carries an `Option PyError` next to its
  partial output.
* The lazy token generator of `Lexer.tokenize` is modelled as a function
  returning the list of tokens produced before the generator finished or
  raised, together with the raised error if any.
* Loops whose index is not structurally decreasing are given an explicit fuel
  argument; the callers pass `chars.length + 1`, which is enough because every
  iteration of each loop advances the position by at least one.
-/

/-- Token kinds, from the `TokenType` enum in `src/token.py`. -/
inductive TokenType
  | UNARY
  | BINARY
  | IDENTIFIER
  | VALUE
  | CONTROL_FLOW
  | KEYWORD
  | SYMBOL
  | GROUPING
  | SEPARATOR
deriving DecidableEq, BEq, Repr

/-- Modelled from the spec: the literal-type tags `String`, `Float` and
`Integer` passed as `node_type` by `Lexer.tokenize` come from the tree module
of the repository, which is not under `src/`; the spec (section 3) describes
them as an optional tag distinguishing string, float and integer literals. -/
inductive NodeType
  | String
  | Float
  | Integer
deriving DecidableEq, BEq, Repr

/-- A token, from the `Token` class in `src/token.py`: a kind, the matched
text, and an optional literal-type tag. Modelled from the spec: the pattern
matchers in `src/src/pattern.py` import `Token` from a `tokens` module that is
not under `src/`; following the spec (section 4.4, a concrete expected token
means kind and value must match exactly), token equality is structural. -/
structure Token where
  token_type : TokenType
  value : String
  node_type : Option NodeType := none
deriving DecidableEq, BEq, Repr

/-- The Python exceptions that the embedded code can raise.
`lexError` is the SyntaxError (improper token found) raised by the tokenizer;
`unbalancedError` is the SyntaxError (unbalanced bracketed expression
detected) raised by `BracketedSequence.match`; `typeError` is the TypeError
raised either by testing None membership in a string or by joining a None
returned from `Scanner.step`; `indexError` is the IndexError from indexing
position -1 of an empty string; `keyError` is the KeyError a dict raises on a
missing key; `stopIteration` is the StopIteration from calling next on an
exhausted iterator; `fuelOut` is an artifact of the fuel-based embedding and
is never produced when the stated fuel bound is respected. -/
inductive PyError
  | lexError
  | unbalancedError
  | typeError
  | indexError
  | keyError
  | stopIteration
  | fuelOut
deriving DecidableEq, BEq, Repr

/-- The characters used by the tokenizer that the verification writes by code
point: the double quote (34). -/
def quoteDouble : Char := Char.ofNat 34

/-- The single quote character (39). -/
def quoteSingle : Char := Char.ofNat 39

/-- The backslash character (92). -/
def backslashChar : Char := Char.ofNat 92

/-- The space character (32). -/
def spaceChar : Char := Char.ofNat 32

/-- The newline character (10). -/
def newlineChar : Char := Char.ofNat 10

/-- The token table of `src/token.py` (`token_types`), as an association list
in dict insertion order. The brace lexemes are written with code-point
escapes. -/
def token_types : List (String × TokenType) :=
  [ ("!", .UNARY), ("++", .UNARY), ("--", .UNARY),
    ("=", .BINARY), ("+", .BINARY), ("-", .BINARY), ("*", .BINARY),
    ("/", .BINARY), ("%", .BINARY), ("&&", .BINARY), ("||", .BINARY),
    ("<", .BINARY), (">", .BINARY),
    ("if", .CONTROL_FLOW), ("elif", .CONTROL_FLOW), ("else", .CONTROL_FLOW),
    ("while", .CONTROL_FLOW), ("for", .CONTROL_FLOW), ("do", .CONTROL_FLOW),
    ("print", .KEYWORD),
    (":", .SYMBOL), ("=>", .SYMBOL),
    ("(", .GROUPING), (")", .GROUPING), ("\x7b", .GROUPING),
    ("\x7d", .GROUPING), (";", .GROUPING),
    (" ", .SEPARATOR), (",", .SEPARATOR) ]

/-- Membership in `allowed_identifier_chars` of `src/token.py`: ASCII
letters, ASCII digits and the underscore. -/
def isIdentChar (c : Char) : Bool :=
  c.isAlpha || c.isDigit || c == '_'

/-- Stable insertion of a string into a list sorted by descending length:
walk past strictly longer strings, stop before the first string that is not
longer. -/
def insertByLenDesc (x : String) : List String → List String
  | [] => [x]
  | y :: ys => if x.length < y.length then y :: insertByLenDesc x ys
               else x :: y :: ys

/-- Stable sort by descending string length, the effect of `sorted_groupby`
with `key=len` and `reverse=True` in `src/lexer.py`. -/
def sortByLenDesc : List String → List String
  | [] => []
  | x :: xs => insertByLenDesc x (sortByLenDesc xs)

/-- `unpack(sorted_groupby(token_types, key=len))` from `Lexer.tokenize`: the
table lexemes sorted by descending length, each paired with its length. -/
def sorted_types : List (Nat × String) :=
  (sortByLenDesc (token_types.map Prod.fst)).map (fun s => (s.length, s))

/-- `Scanner.peek(n)`: the slice of up to `n` characters starting at the
current position; shorter near the end of input. -/
def Scanner.peek (chars : List Char) (pos n : Nat) : List Char :=
  (chars.drop pos).take n

/-- `Scanner.peek_at(n)`: the character at `pos + n`, or `none` at or past the
end of input. -/
def Scanner.peekAt (chars : List Char) (pos n : Nat) : Option Char :=
  if h : pos + n ≥ chars.length then none
  else some (chars.get ⟨pos + n, by omega⟩)

/-- `Scanner.step()`: increments the position, then compares the incremented
position against the length, returning `none` when it is not smaller and the
character at the old position otherwise. Because the comparison uses the
incremented position, a call at the last valid position returns `none` even
though a character is there. -/
def Scanner.step (chars : List Char) (pos : Nat) : Option Char × Nat :=
  if h : pos + 1 ≥ chars.length then (none, pos + 1)
  else (some (chars.get ⟨pos, by omega⟩), pos + 1)

/-- `Scanner.advance(n)`: `n` calls to `step`, concatenated. The Python code
joins the results with an empty separator, which raises a TypeError when any
step returned None; that case is modelled by `none`. -/
def Scanner.advance (chars : List Char) (pos : Nat) : Nat → Option (List Char)
  | 0 => some []
  | n + 1 =>
    match Scanner.step chars pos with
    | (none, _) => none
    | (some c, pos2) => (Scanner.advance chars pos2 n).map (c :: ·)

/-- Outcome of the fixed-lexeme candidate loop at the top of
`Lexer.tokenize`: either no candidate matched (the loop finished and the
`else` block of the `for` runs), or a KEYWORD candidate matched but was
rejected because the next character continues an identifier (a bare `break`,
so no token is emitted and the `else` block is skipped), or a candidate
matched and a token of the given kind and lexeme is emitted, or one of the
two exceptions reachable in the loop body was raised: the KeyError of the
dict lookup and the TypeError of testing None membership in
`allowed_identifier_chars` when `peek_at` runs past the end of input. -/
inductive FixedResult
  | noMatch
  | rejected
  | emit (kind : TokenType) (lexeme : String) (length : Nat)
  | keyError
  | typeError
deriving DecidableEq, BEq, Repr

/-- The fixed-lexeme candidate loop of `Lexer.tokenize`, over the
length-descending `sorted_types` list: the first candidate whose lexeme
equals the upcoming characters decides the outcome. -/
def fixedAttempt (chars : List Char) (pos : Nat) : List (Nat × String) → FixedResult
  | [] => .noMatch
  | (length, lexeme) :: rest =>
    if Scanner.peek chars pos length = lexeme.toList then
      match List.lookup lexeme token_types with
      | none => .keyError
      | some kind =>
        if kind = TokenType.KEYWORD then
          match Scanner.peekAt chars pos length with
          | none => .typeError
          | some c => if isIdentChar c then .rejected else .emit kind lexeme length
        else .emit kind lexeme length
    else fixedAttempt chars pos rest

/-- The string-literal scan loop of `Lexer.tokenize`: starting at offset 1
past the opening quote, read characters until the unescaped closing quote or
the end of input; the loop index is incremented before either break, so the
returned index is one past the last inspected offset. Inspecting a closing
quote while the accumulator is still empty indexes position -1 of an empty
string, an IndexError. The fuel is an embedding artifact; `chars.length + 1`
is enough because the offset grows by one per iteration. -/
def stringScan (chars : List Char) : Nat → Nat → Char → Nat → List Char →
    Except PyError (Nat × List Char)
  | 0, _, _, _, _ => .error .fuelOut
  | fuel + 1, pos, quote, i, acc =>
    match Scanner.peekAt chars pos i with
    | none => .ok (i + 1, acc)
    | some s =>
      if s = quote then
        match acc.getLast? with
        | none => .error .indexError
        | some lastc =>
          if lastc = backslashChar then
            stringScan chars fuel pos quote (i + 1) (acc ++ [s])
          else .ok (i + 1, acc)
      else stringScan chars fuel pos quote (i + 1) (acc ++ [s])

/-- The numeric-literal scan loop of `Lexer.tokenize`: read digits greedily,
allowing a single dot which switches the literal to floating point; a second
dot or any other character stops the scan without being consumed. Returns the
count of consumed characters, the float flag and the consumed text. -/
def numScan (chars : List Char) : Nat → Nat → Nat → Bool → List Char →
    Nat × Bool × List Char
  | 0, _, i, is_float, num => (i, is_float, num)
  | fuel + 1, pos, i, is_float, num =>
    match Scanner.peekAt chars pos i with
    | none => (i, is_float, num)
    | some s =>
      if s.isDigit then numScan chars fuel pos (i + 1) is_float (num ++ [s])
      else if s = '.' ∧ is_float = false then
        numScan chars fuel pos (i + 1) true (num ++ [s])
      else (i, is_float, num)

/-- The identifier scan loop of `Lexer.tokenize`: read letters, digits and
underscores; returns the count of consumed characters and the consumed
text. -/
def identScan (chars : List Char) : Nat → Nat → Nat → List Char →
    Nat × List Char
  | 0, _, i, acc => (i, acc)
  | fuel + 1, pos, i, acc =>
    match Scanner.peekAt chars pos i with
    | none => (i, acc)
    | some s =>
      if isIdentChar s then identScan chars fuel pos (i + 1) (acc ++ [s])
      else (i, acc)

/-- Prepend an already-yielded token to the output of the rest of the
generator run. -/
def prependTok (t : Token) (out : List Token × Option PyError) :
    List Token × Option PyError :=
  (t :: out.1, out.2)

/-- The body of `Lexer.tokenize`, one outer `stream()` iteration per fuel
unit. The result is the list of tokens the generator yielded before
finishing or raising, together with the raised exception if any. The branch
order follows the source: skip space and newline; try the fixed lexemes in
length-descending order (where a rejected KEYWORD candidate breaks out of the
candidate loop, skipping the literal and identifier handling entirely, so the
outer loop resumes one character further); otherwise scan a string literal, a
numeric literal or an identifier, or raise the SyntaxError for an improper
token. In the fixed-lexeme branch the token is yielded before `advance` runs;
in the literal and identifier branches `advance` runs first. The fuel
`chars.length + 1` supplied by `tokenize` is enough because every iteration
advances the position by at least one. -/
def tokenizeAux (chars : List Char) : Nat → Nat → List Token × Option PyError
  | 0, _ => ([], some .fuelOut)
  | fuel + 1, pos =>
    if h : pos < chars.length then
      let char := chars.get ⟨pos, h⟩
      if char = spaceChar ∨ char = newlineChar then
        tokenizeAux chars fuel (pos + 1)
      else
        match fixedAttempt chars pos sorted_types with
        | .emit kind lexeme length =>
          prependTok ⟨kind, lexeme, none⟩
            (match Scanner.advance chars pos (length - 1) with
             | none => ([], some .typeError)
             | some _ => tokenizeAux chars fuel (pos + (length - 1) + 1))
        | .rejected => tokenizeAux chars fuel (pos + 1)
        | .keyError => ([], some .keyError)
        | .typeError => ([], some .typeError)
        | .noMatch =>
          if char = quoteDouble ∨ char = quoteSingle then
            match stringScan chars (chars.length + 1) pos char 1 [] with
            | .error e => ([], some e)
            | .ok (i, acc) =>
              match Scanner.advance chars pos (i - 1) with
              | none => ([], some .typeError)
              | some _ =>
                prependTok ⟨.VALUE, String.mk acc, some .String⟩
                  (tokenizeAux chars fuel (pos + (i - 1) + 1))
          else if char.isDigit then
            match numScan chars (chars.length + 1) pos 0 false [] with
            | (i, is_float, num) =>
              match Scanner.advance chars pos (i - 1) with
              | none => ([], some .typeError)
              | some _ =>
                prependTok
                  ⟨.VALUE, String.mk num,
                    some (if is_float then .Float else .Integer)⟩
                  (tokenizeAux chars fuel (pos + (i - 1) + 1))
          else if isIdentChar char then
            match identScan chars (chars.length + 1) pos 0 [] with
            | (i, acc) =>
              match Scanner.advance chars pos (i - 1) with
              | none => ([], some .typeError)
              | some _ =>
                prependTok ⟨.IDENTIFIER, String.mk acc, none⟩
                  (tokenizeAux chars fuel (pos + (i - 1) + 1))
          else ([], some .lexError)
    else ([], none)

/-- `Lexer.tokenize` on a whole source text: run the generator from position
zero with enough fuel for every position. -/
def tokenize (chars : List Char) : List Token × Option PyError :=
  tokenizeAux chars (chars.length + 1) 0

/-
The pattern matchers of `src/src/pattern.py`. The Token Cursor they consume
is an external collaborator (spec section 6): it is modelled as the list of
remaining tokens, where iteration and `next` take the head (raising
StopIteration on an empty list), `peek` is the head or a none-equivalent, and
`consume(n)` drops `n` tokens. The Python `Match` class is dynamically typed;
each embedded matcher returns the fields it actually populates.
-/

/-- A `Match` as produced by the Terminating and Delimited sequence matchers:
the boolean success flag and the optional captured group. The group elements
are `Option Token` because `DelimitedSequence.match` appends the raw result
of `peek`, which can be the none-equivalent. -/
structure MatchResult where
  is_match : Bool
  groups : Option (List (Option Token))
deriving DecidableEq, BEq, Repr

/-- A `Match` as produced by `BracketedSequence.match`: the Python code
passes `len(buffer)`, an integer, as the success flag, and the buffer without
its first and last elements as the group. -/
structure BracketedMatch where
  is_match : Nat
  groups : List Token
deriving DecidableEq, BEq, Repr

/-- An element of a `TokenSequence` pattern: either a bare `TokenType` (any
token of that kind matches) or a concrete `Token` (the token must be equal).
This is the tagged variant the spec (section 9) prescribes for the isinstance
dispatch in `TokenSequence.check_token`; the TypeError branch for a foreign
pattern element is unrepresentable here. -/
inductive PatternElem
  | ofType (t : TokenType)
  | ofToken (t : Token)
deriving DecidableEq, BEq, Repr

/-- `TokenSequence.check_token`: compare a stream token against the `i`-th
pattern element. -/
def check_token (p : PatternElem) (tok : Token) : Bool :=
  match p with
  | .ofType ty => tok.token_type == ty
  | .ofToken t => tok == t

/-- The loop of `TokenSequence.match` over `enumerate(token_stream.stream())`
with the pattern index `i`. When the stream is exhausted, the `for` statement
consumes the StopIteration of the iterator and completes normally, so the
`for`-`else` branch runs: `consume(len(pattern))` is called on the cursor and
`Match(True)` is returned - the `except StopIteration` handler around the
loop never fires. The result records the returned flag together with the
argument of the `consume` call when one was made. When the stream is longer
than the pattern and every pattern element matched, `self.pattern[i]` is
indexed out of range, an IndexError that propagates. A mismatch breaks out of
the loop and returns `Match(False)` without consuming. -/
def tokenSequenceMatchAux (pattern : List PatternElem) (patLen : Nat) :
    Nat → List Token → Except PyError (MatchResult × Option Nat)
  | _, [] => .ok (⟨true, none⟩, some patLen)
  | i, tok :: rest =>
    match pattern[i]? with
    | none => .error .indexError
    | some p =>
      if check_token p tok then tokenSequenceMatchAux pattern patLen (i + 1) rest
      else .ok (⟨false, none⟩, none)

/-- `TokenSequence.match` against the remaining token stream. -/
def tokenSequenceMatch (pattern : List PatternElem) (stream : List Token) :
    Except PyError (MatchResult × Option Nat) :=
  tokenSequenceMatchAux pattern pattern.length 0 stream

/-- `TerminatingSequence.match`: iterate the stream until a token equal to
the terminator is found, returning `Match(True)`. When the stream is
exhausted first, the `for` statement consumes the StopIteration and the loop
completes normally; the `except StopIteration` handler that would raise
EOFError is therefore unreachable, control falls off the end of the function
and Python returns None, modelled as `.ok none`. -/
def terminatingSequenceMatch (terminator : Token) :
    List Token → Except PyError (Option MatchResult)
  | [] => .ok none
  | t :: rest =>
    if t = terminator then .ok (some ⟨true, none⟩)
    else terminatingSequenceMatch terminator rest

/-- The nesting-counter update of `BracketedSequence.match`: a token equal to
the open bracket increments the level; otherwise a token whose value equals
the close value decrements it; otherwise the level is unchanged. -/
def bracketStep (opn : Token) (close : String) (level : Int) (t : Token) : Int :=
  if t = opn then level + 1
  else if t.value = close then level - 1
  else level

/-- The level of the nesting counter after processing a list of tokens,
starting from a given level. -/
def bracketLevel (opn : Token) (close : String) (tokens : List Token) : Int :=
  tokens.foldl (bracketStep opn close) 0

/-- The loop of `BracketedSequence.match`: update the level, append the token
to the buffer, and stop as soon as the level is zero, returning a `Match`
whose flag is `len(buffer)` and whose group is the buffer without its first
and last tokens. When the stream is exhausted without the loop breaking, the
`for`-`else` branch raises the SyntaxError for an unbalanced bracketed
expression. -/
def bracketedSequenceMatchAux (opn : Token) (close : String) :
    List Token → Int → List Token → Except PyError BracketedMatch
  | [], _, _ => .error .unbalancedError
  | t :: rest, level, buffer =>
    let level2 := bracketStep opn close level t
    let buffer2 := buffer ++ [t]
    if level2 = 0 then .ok ⟨buffer2.length, (buffer2.drop 1).dropLast⟩
    else bracketedSequenceMatchAux opn close rest level2 buffer2

/-- `BracketedSequence.match` against the remaining token stream, starting
with level zero and an empty buffer. -/
def bracketedSequenceMatch (opn : Token) (close : String)
    (stream : List Token) : Except PyError BracketedMatch :=
  bracketedSequenceMatchAux opn close stream 0 []

/-- The loop of `DelimitedSequence.match`: peek the next token (the
none-equivalent at end of stream); if the element predicate accepts it,
append it to the groups and call `next` (StopIteration when the stream is
empty, which happens exactly when the accepted peek was the none-equivalent);
then peek again and consume the token if it equals the delimiter, continuing
the loop, otherwise stop. Stopping returns `Match(True, groups)`. -/
def delimitedSequenceMatchAux (filter : Option Token → Bool)
    (delimiter : Token) :
    List Token → List (Option Token) → Except PyError MatchResult
  | [], groups =>
    if filter none then .error .stopIteration
    else .ok ⟨true, some groups⟩
  | t :: rest, groups =>
    if filter (some t) then
      match rest with
      | [] => .ok ⟨true, some (groups ++ [some t])⟩
      | d :: rest2 =>
        if d = delimiter then
          delimitedSequenceMatchAux filter delimiter rest2 (groups ++ [some t])
        else .ok ⟨true, some (groups ++ [some t])⟩
    else .ok ⟨true, some groups⟩

/-- `DelimitedSequence.match` against the remaining token stream, starting
with empty groups. -/
def delimitedSequenceMatch (filter : Option Token → Bool) (delimiter : Token)
    (stream : List Token) : Except PyError MatchResult :=
  delimitedSequenceMatchAux filter delimiter stream []

/-- The default terminator of `TerminatingSequence`: a grouping semicolon. -/
def semiTok : Token := ⟨.GROUPING, ";", none⟩

/-- The default delimiter of `DelimitedSequence`: a separator comma. -/
def commaTok : Token := ⟨.SEPARATOR, ",", none⟩

/-- A grouping open-parenthesis token, used as the open bracket in tests. -/
def openParenTok : Token := ⟨.GROUPING, "(", none⟩

/-- An identifier token with the given text. -/
def idTok (s : String) : Token := ⟨.IDENTIFIER, s, none⟩

/-- An element predicate accepting exactly identifier tokens and rejecting
the end-of-stream none-equivalent. -/
def identFilter (e : Option Token) : Bool :=
  match e with
  | some t => t.token_type == TokenType.IDENTIFIER
  | none => false

/-- C1: the claim states that tokenizing "printer" yields one IDENTIFIER
token with value "printer", and that a rejected KEYWORD candidate never drops
leading characters. The code does otherwise: the rejection uses a bare break,
which skips the for-else identifier handling, so the outer loop resumes one
character later and the leading p is dropped; tokenizing "printer" yields one
IDENTIFIER token with value "rinter" and no error. -/
theorem tokenize_printer_drops_leading_char :
    tokenize ("printer".toList) =
      ([⟨TokenType.IDENTIFIER, "rinter", none⟩], none) := by
  rfl

/-- C2: the claim states that for sources composed only of declared lexemes
and whitespace, concatenating the token lexemes reproduces the source without
its whitespace. The source "printdo" is the declared lexeme "print" followed
by the declared lexeme "do", yet tokenizing it yields the single IDENTIFIER
token "rintdo" (the rejected KEYWORD candidate drops the leading p), whose
concatenation differs from "printdo". -/
theorem tokenize_printdo_not_roundtrip :
    tokenize ("printdo".toList) =
      ([⟨TokenType.IDENTIFIER, "rintdo", none⟩], none) ∧
      ("rintdo" : String) ≠ "printdo" := by
  exact ⟨rfl, by decide⟩

/-- C3: the claim states that `TerminatingSequence.match` raises a hard
structural error when the stream is exhausted before the terminator. In the
code the for statement consumes the StopIteration of the exhausted stream and
completes normally, so the except handler that would raise EOFError never
fires; control falls off the end of the function and None is returned - no
error propagates and no Match is returned. Both conjuncts evaluate the
matcher on a stream without the default semicolon terminator. -/
theorem terminatingSequence_no_terminator_returns_none :
    terminatingSequenceMatch semiTok [] = .ok none ∧
    terminatingSequenceMatch semiTok [idTok "x"] = .ok none := by
  exact ⟨rfl, rfl⟩

/-- C4: the claim states that a string scan reaching end of input truncates
silently and emits a VALUE/String token. In the code the scan itself does end
silently, but the following `advance(i - 1)` call runs `step` up to the end
of input, where the off-by-one boundary check makes `step` return None, and
joining that None raises a TypeError before the token is yielded: tokenizing
a single-quote followed by the letter a produces no token and the
TypeError. -/
theorem tokenize_unterminated_string_typeError :
    tokenize [quoteSingle, 'a'] = ([], some PyError.typeError) := by
  rfl

/-- C5: the claim states that a stream exhausted before the full pattern has
been checked, with every streamed token matching, makes `TokenSequence.match`
report failure without consuming. In the code the for statement consumes the
StopIteration and completes without break, so the for-else success branch
runs: `consume(len(pattern))` is called and `Match(True)` is returned. The
first conjunct evaluates a one-element pattern against the empty stream, the
second a two-element pattern against a one-token stream whose only token
matches. -/
theorem tokenSequence_exhausted_reports_success :
    tokenSequenceMatch [PatternElem.ofType .GROUPING] [] =
      .ok (⟨true, none⟩, some 1) ∧
    tokenSequenceMatch [PatternElem.ofType .IDENTIFIER,
        PatternElem.ofType .GROUPING] [idTok "x"] =
      .ok (⟨true, none⟩, some 2) := by
  exact ⟨rfl, rfl⟩

/-- C6 counterexample: the claim states that `DelimitedSequence.match`
returns a successful Match for every cursor and every predicate, including
the default accept-anything predicate and a cursor at end of stream. With the
default predicate and an exhausted cursor, `peek` returns the
none-equivalent, the predicate accepts it, and the `next` call on the
exhausted cursor raises StopIteration. -/
theorem delimitedSequence_default_filter_raises :
    delimitedSequenceMatch (fun _ => true) commaTok [] =
      .error PyError.stopIteration := by
  rfl

/-- C7: the claim states that `Scanner.step` at any position strictly before
the end of input returns the character at that position. The code increments
the position first and compares the incremented position against the length,
so at the last valid position it returns the none sentinel although a
character is there: on the one-character source the step at position 0
returns none, while on a two-character source it returns the character. -/
theorem scanner_step_last_char_none :
    Scanner.step ['a'] 0 = (none, 1) ∧
    Scanner.step ['a', 'b'] 0 = (some 'a', 1) := by
  exact ⟨rfl, rfl⟩

/-- C8 counterexample: the claim states that tokenizing "3.1.4" yields a
VALUE/Float token "3.1" followed by further tokens covering ".4" with no
lexical error. The dot is not a declared lexeme, not a quote, not a digit and
not an identifier character, so after the "3.1" token the tokenizer raises
the SyntaxError for an improper token. -/
theorem tokenize_second_dot_raises :
    (tokenize ("3.1.4".toList)).2 = some PyError.lexError := by
  rfl

/-- C8 amended: tokenizing "3.14" yields exactly one VALUE token "3.14" with
literal type Float; tokenizing "3.1.4" yields the VALUE/Float token "3.1"
(the second dot is not consumed into the literal) and then raises the
lexical error for an improper token at the second dot, which is not a
declared lexeme, so no tokens cover ".4". -/
theorem tokenize_numeric_literals :
    tokenize ("3.14".toList) =
      ([⟨TokenType.VALUE, "3.14", some NodeType.Float⟩], none) ∧
    tokenize ("3.1.4".toList) =
      ([⟨TokenType.VALUE, "3.1", some NodeType.Float⟩],
        some PyError.lexError) := by
  exact ⟨rfl, rfl⟩

/-- Auxiliary: a run of the delimited-sequence loop with an element predicate
that rejects the end-of-stream none-equivalent always returns a successful
Match, for any starting groups; by strong induction on the stream length,
since one loop turn can consume two tokens. -/
theorem delimitedAux_ok (filter : Option Token → Bool) (delim : Token)
    (hf : filter none = false) :
    ∀ (n : Nat) (stream : List Token), stream.length ≤ n →
    ∀ groups, ∃ g,
      delimitedSequenceMatchAux filter delim stream groups =
        .ok ⟨true, some g⟩ := by
  intro n
  induction n with
  | zero =>
    intro stream hlen groups
    have hs : stream = [] := List.eq_nil_of_length_eq_zero (Nat.le_zero.mp hlen)
    subst hs
    exact ⟨groups, by simp [delimitedSequenceMatchAux, hf]⟩
  | succ n ih =>
    intro stream hlen groups
    match stream with
    | [] => exact ⟨groups, by simp [delimitedSequenceMatchAux, hf]⟩
    | [t] =>
      by_cases hft : filter (some t)
      · exact ⟨groups ++ [some t], by simp [delimitedSequenceMatchAux, hft]⟩
      · exact ⟨groups, by simp [delimitedSequenceMatchAux, hft]⟩
    | t :: d :: rest2 =>
      by_cases hft : filter (some t)
      · by_cases hd : d = delim
        · subst hd
          have hlen2 : rest2.length ≤ n := by
            simp only [List.length_cons] at hlen; omega
          obtain ⟨g, hg⟩ := ih rest2 hlen2 (groups ++ [some t])
          exact ⟨g, by simp [delimitedSequenceMatchAux, hft, hg]⟩
        · exact ⟨groups ++ [some t],
            by simp [delimitedSequenceMatchAux, hft, hd]⟩
      · exact ⟨groups, by simp [delimitedSequenceMatchAux, hft]⟩

/-- C6 amended: for every token cursor and every element predicate that
rejects the end-of-stream none-equivalent, `DelimitedSequence.match` returns
a successful Match and never raises; zero captured elements is a valid result
and a trailing delimiter is consumed and tolerated. (With a predicate that
accepts the none-equivalent, such as the default accept-anything predicate,
a match that reaches the end of the stream instead raises StopIteration.) -/
theorem delimitedSequence_ok_of_filter_rejects_none
    (filter : Option Token → Bool) (delim : Token) (stream : List Token)
    (hf : filter none = false) :
    ∃ g, delimitedSequenceMatch filter delim stream = .ok ⟨true, some g⟩ :=
  delimitedAux_ok filter delim hf stream.length stream (Nat.le_refl _) []

/-- C6 witness: the identifier predicate rejects the none-equivalent, and the
matcher succeeds on the token stream of "a," - one identifier and a trailing
delimiter. -/
theorem delimitedSequence_ok_witness :
    identFilter none = false ∧
    ∃ g, delimitedSequenceMatch identFilter commaTok [idTok "a", commaTok] =
      .ok ⟨true, some g⟩ :=
  ⟨rfl, delimitedSequence_ok_of_filter_rejects_none identFilter commaTok
    [idTok "a", commaTok] rfl⟩

/-- Auxiliary: when every prefix of the stream leaves the nesting counter
away from zero, the bracketed-sequence loop runs the stream to exhaustion and
raises, for any starting level and buffer. -/
theorem bracketedAux_error (opn : Token) (close : String) :
    ∀ (stream : List Token) (level : Int) (buffer : List Token),
    (∀ k, k < stream.length →
      List.foldl (bracketStep opn close) level (stream.take (k + 1)) ≠ 0) →
    bracketedSequenceMatchAux opn close stream level buffer =
      .error PyError.unbalancedError := by
  intro stream
  induction stream with
  | nil => intro level buffer _; rfl
  | cons t rest ih =>
    intro level buffer h
    have h0 : bracketStep opn close level t ≠ 0 := by
      have h1 := h 0 (by simp)
      simpa using h1
    have h2 : ∀ k, k < rest.length →
        List.foldl (bracketStep opn close) (bracketStep opn close level t)
          (rest.take (k + 1)) ≠ 0 := by
      intro k hk
      have h3 := h (k + 1) (by simpa using Nat.succ_lt_succ hk)
      simpa [List.take_succ_cons, List.foldl_cons] using h3
    simp only [bracketedSequenceMatchAux]
    rw [if_neg h0]
    exact ih (bracketStep opn close level t) (buffer ++ [t]) h2

/-- C9: for every token stream that is exhausted before the nesting counter
of `BracketedSequence.match` returns to zero - that is, the counter is away
from zero after every token of the stream, so the loop never breaks -
matching raises the structural SyntaxError for an unbalanced bracketed
expression, propagated to the caller; no partial Match is returned. -/
theorem bracketedSequence_unbalanced_raises (opn : Token) (close : String)
    (stream : List Token)
    (h : ∀ k, k < stream.length →
      bracketLevel opn close (stream.take (k + 1)) ≠ 0) :
    bracketedSequenceMatch opn close stream = .error PyError.unbalancedError :=
  bracketedAux_error opn close stream 0 [] h

/-- C9 witness: the stream holding an open parenthesis and the identifier a
keeps the counter at one after each token, and matching it raises the
unbalanced-bracket error. -/
theorem bracketedSequence_unbalanced_witness :
    (∀ k, k < ([openParenTok, idTok "a"] : List Token).length →
      bracketLevel openParenTok ")"
        (([openParenTok, idTok "a"] : List Token).take (k + 1)) ≠ 0) ∧
    bracketedSequenceMatch openParenTok ")" [openParenTok, idTok "a"] =
      .error PyError.unbalancedError :=
  ⟨by decide,
    bracketedSequence_unbalanced_raises openParenTok ")"
      [openParenTok, idTok "a"] (by decide)⟩

/-- Auxiliary: `peek_at` strictly inside the source returns the character at
the peeked position. -/
theorem peekAt_of_lt (chars : List Char) (pos n : Nat)
    (h : pos + n < chars.length) :
    Scanner.peekAt chars pos n = some (chars.get ⟨pos + n, h⟩) := by
  rw [Scanner.peekAt, dif_neg (by omega)]

/-- Auxiliary: the fixed-lexeme candidate loop matches nothing when the
current character differs from the first character of every candidate lexeme,
since a candidate is accepted only when the peeked slice equals its full
nonempty lexeme. -/
theorem fixedAttempt_noMatch_of_head (chars : List Char) (pos : Nat) (q : Char)
    (hhead : (chars.drop pos).head? = some q) :
    ∀ l : List (Nat × String),
      (∀ e ∈ l, 0 < e.1 ∧ e.2.toList.head? ≠ some q) →
      fixedAttempt chars pos l = .noMatch := by
  intro l
  induction l with
  | nil => intro _; rfl
  | cons e rest ih =>
    intro hl
    obtain ⟨hpos, hne⟩ := hl e (by simp)
    obtain ⟨length, lexeme⟩ := e
    have hcond : ¬ Scanner.peek chars pos length = lexeme.toList := by
      intro heq
      apply hne
      rw [← heq]
      cases hdp : chars.drop pos with
      | nil => rw [hdp] at hhead; simp at hhead
      | cons a tail =>
        rw [hdp] at hhead
        simp only [List.head?_cons, Option.some_inj] at hhead
        obtain ⟨m, rfl⟩ : ∃ m, length = m + 1 := ⟨length - 1, by omega⟩
        simp [Scanner.peek, hdp, hhead]
    simp only [fixedAttempt, if_neg hcond]
    exact ih (fun x hx => hl x (by simp [hx]))

/-- C10: whenever tokenization reaches a position holding a quote character
immediately followed by the same unescaped quote character - an empty string
literal - the scan inspects the closing quote on its first turn, indexes the
last character of the still-empty accumulated literal, and raises the
IndexError; no VALUE/String token with empty content is yielded. -/
theorem tokenize_empty_literal_indexError (chars : List Char) (fuel pos : Nat)
    (q : Char) (hq : q = quoteDouble ∨ q = quoteSingle)
    (h0 : chars[pos]? = some q) (h1 : chars[pos + 1]? = some q) :
    tokenizeAux chars (fuel + 1) pos = ([], some PyError.indexError) := by
  have hlt1 : pos + 1 < chars.length := by
    rcases List.getElem?_eq_some.mp h1 with ⟨h, _⟩
    exact h
  have hlt : pos < chars.length := by omega
  have hc : chars.get ⟨pos, hlt⟩ = q := by
    rcases List.getElem?_eq_some.mp h0 with ⟨h, hv⟩
    simpa using hv
  have hc1 : chars.get ⟨pos + 1, hlt1⟩ = q := by
    rcases List.getElem?_eq_some.mp h1 with ⟨h, hv⟩
    simpa using hv
  have hhead : (chars.drop pos).head? = some q := by
    rw [List.head?_drop]
    simpa using h0
  have hws : ¬ (q = spaceChar ∨ q = newlineChar) := by
    rcases hq with rfl | rfl <;> decide
  have hfa : fixedAttempt chars pos sorted_types = .noMatch := by
    apply fixedAttempt_noMatch_of_head chars pos q hhead
    rcases hq with rfl | rfl <;> decide
  have hscan : stringScan chars (chars.length + 1) pos q 1 [] =
      .error PyError.indexError := by
    obtain ⟨f, hf⟩ : ∃ f, chars.length + 1 = f + 1 := ⟨chars.length, rfl⟩
    rw [hf]
    rw [stringScan, peekAt_of_lt chars pos 1 hlt1, hc1]
    simp
  rw [tokenizeAux]
  rw [dif_pos hlt]
  simp only [hc]
  rw [if_neg hws]
  simp only [hfa]
  rw [if_pos hq]
  simp only [hscan]

/-- C10 witness: the two-character source consisting of two single quotes is
an empty string literal at position zero, and tokenizing it yields no token
and the IndexError. -/
theorem tokenize_empty_literal_witness :
    ((quoteSingle = quoteDouble ∨ quoteSingle = quoteSingle) ∧
      ([quoteSingle, quoteSingle] : List Char)[0]? = some quoteSingle) ∧
    tokenize [quoteSingle, quoteSingle] = ([], some PyError.indexError) :=
  ⟨⟨Or.inr rfl, by decide⟩,
    tokenize_empty_literal_indexError [quoteSingle, quoteSingle] 2 0
      quoteSingle (Or.inr rfl) (by decide) (by decide)⟩
